import Mathlib

/-!
Verification of the Brevo HTTP client (`src/dj_brevo/services/client.py`).

The client is embedded shallowly: JSON values are an inductive type, a
payload is an ordered association list of string keys to JSON values
(mirroring Python dict insertion order), and each method of `BrevoClient`
becomes a pure Lean function.  Fallible operations return
`Except BrevoError`; the HTTP response is passed in as an explicit value
so that the response-handling logic can be analysed.
-/

/-- JSON values, as produced by `response.json()` and placed in payloads. -/
inductive JValue where
  | str (s : String)
  | num (n : Int)
  | bool (b : Bool)
  | list (xs : List JValue)
  | obj (fields : List (String × JValue))

/-- A Python dict with string keys, in insertion order. -/
abbrev Payload : Type := List (String × JValue)

/-- A recipient / sender mapping (`dict[str, str]` in the source):
`{"email": ..., "name": ...}`. -/
abbrev Recipient : Type := List (String × String)

/-- Embed a recipient dict into a JSON value. -/
def recipientJ (r : Recipient) : JValue :=
  JValue.obj (r.map (fun kv => (kv.1, JValue.str kv.2)))

/-- Python `d[k]`-style lookup returning the first binding for `k`. -/
def getKey (p : Payload) (k : String) : Option JValue :=
  (p.find? (fun kv => kv.1 == k)).map (fun kv => kv.2)

/-- Python `k in d` membership test. -/
def hasKey (p : Payload) (k : String) : Bool :=
  p.any (fun kv => kv.1 == k)

/-- Python `d[k] = v`: overwrite in place if present, else append. -/
def pySetItem (p : Payload) (k : String) (v : JValue) : Payload :=
  if p.any (fun kv => kv.1 == k) then
    p.map (fun kv => if kv.1 == k then (k, v) else kv)
  else
    p ++ [(k, v)]

/-- Python truthiness of an optional string (`None` and `""` are falsy). -/
def optStrTruthy : Option String → Bool
  | none => false
  | some s => !s.isEmpty

/-- Python truthiness of an optional dict (`None` and `{}` are falsy). -/
def optDictTruthy : Option Recipient → Bool
  | none => false
  | some d => !d.isEmpty

/-- Python truthiness of an optional list (`None` and `[]` are falsy). -/
def optListTruthy : Option (List Recipient) → Bool
  | none => false
  | some xs => !xs.isEmpty

/-- Python truthiness of an optional params dict (`None` and `{}` falsy). -/
def optPayloadTruthy : Option Payload → Bool
  | none => false
  | some p => !p.isEmpty

/-- Python `a or b` on optional strings: `a` when truthy, else `b`. -/
def pyOr (a b : Option String) : Option String :=
  if optStrTruthy a then a else b

/-- The settings object `brevo_settings` consumed by the client.
`none` models an unset / `None` value. -/
structure BrevoSettings where
  API_KEY : Option String
  API_BASE_URL : String
  TIMEOUT : Nat
  SANDBOX : Bool
  DEFAULT_FROM_EMAIL : Option String

/-- The typed error taxonomy raised by the client.  The three API errors
carry the constructor arguments passed at the raise sites in
`_handle_response`; `configError` carries only a message. -/
inductive BrevoError where
  | configError (message : String)
  | authError (message : JValue) (status_code : Nat) (response_data : Payload)
  | rateLimitError (message : JValue) (status_code : Nat) (response_data : Payload)
  | apiError (message : JValue) (status_code : Nat) (response_data : Payload)

/-- The message of `BrevoConfigError` raised by `BrevoClient.__init__`
(two adjacent Python string literals concatenate with no space). -/
def apiKeyCfgMsg : String :=
  "Brevo API key not configured.Set DJ_BREVO[\x27API_KEY\x27] in your Django settings"

/-- The message of `BrevoConfigError` raised by `send_email` when no
sender is available. -/
def senderCfgMsg : String :=
  "No sender provided and DJ_BREVO[\x27DEFAULT_FROM_EMAIL\x27] not set."

/-- The state of a constructed `BrevoClient`: the attributes assigned in
`__init__`. -/
structure BrevoClient where
  api_key : String
  base_url : String
  timeout : Nat
  sandbox : Bool

/-- Constructor `BrevoClient.__init__`: `self.api_key = api_key or brevo_settings.API_KEY`;
raise `BrevoConfigError` if the result is falsy; otherwise capture
`API_BASE_URL`, `TIMEOUT` and `SANDBOX` from settings. -/
def BrevoClient.init (api_key : Option String) (s : BrevoSettings) :
    Except BrevoError BrevoClient :=
  match pyOr api_key s.API_KEY with
  | none => .error (.configError apiKeyCfgMsg)
  | some k =>
      if k.isEmpty then .error (.configError apiKeyCfgMsg)
      else .ok ⟨k, s.API_BASE_URL, s.TIMEOUT, s.SANDBOX⟩

/-- An HTTP response as observed by `_handle_response`: the status code,
the JSON body (`none` when `response.json()` raises `ValueError`), and
the raw `response.text`. -/
structure Response where
  status_code : Nat
  jsonBody : Option Payload
  text : String

/-- Predicate `httpx.Response.is_success`: status in `[200, 300)`. -/
def is2xx (n : Nat) : Bool :=
  200 ≤ n && n < 300

/-- The fixed sandbox header mapping `{"X-Sib-Sandbox": "drop"}`. -/
def sandboxHeadersJ : JValue := JValue.obj [("X-Sib-Sandbox", JValue.str "drop")]

/-- Method `BrevoClient._apply_sandbox`: add the fixed sandbox header to the
payload when sandbox mode is enabled. -/
def apply_sandbox (c : BrevoClient) (payload : Payload) : Payload :=
  if c.sandbox then
    pySetItem payload "headers" sandboxHeadersJ
  else
    payload

/-- Method `BrevoClient._handle_response`: parse the body (empty dict on parse
failure), return it on 2xx, otherwise raise the typed error for the
status code with `data.get("message", response.text)` as message. -/
def handle_response (r : Response) : Except BrevoError Payload :=
  let data := match r.jsonBody with
    | some d => d
    | none => []
  if is2xx r.status_code then
    .ok data
  else
    let message := (getKey data "message").getD (JValue.str r.text)
    if r.status_code = 401 then
      .error (.authError message 401 data)
    else if r.status_code = 429 then
      .error (.rateLimitError message 429 data)
    else
      .error (.apiError message r.status_code data)

/-- Sender resolution in `send_email`: `if sender is None`, fall back to
`brevo_settings.DEFAULT_FROM_EMAIL`, raising `BrevoConfigError` when
that is falsy. -/
def resolve_sender (sender : Option Recipient) (s : BrevoSettings) :
    Except BrevoError Recipient :=
  match sender with
  | some snd => .ok snd
  | none =>
      match s.DEFAULT_FROM_EMAIL with
      | none => .error (.configError senderCfgMsg)
      | some d =>
          if d.isEmpty then .error (.configError senderCfgMsg)
          else .ok [("email", d)]

/-- The effect of `if x: payload[k] = v` for an optional string input:
the singleton binding when the input is truthy, else nothing. -/
def optSegStr (k : String) (o : Option String) : Payload :=
  match o with
  | some t => if t.isEmpty then [] else [(k, JValue.str t)]
  | none => []

/-- The effect of `if x: payload[k] = v` for an optional recipient dict. -/
def optSegRecipient (k : String) (o : Option Recipient) : Payload :=
  match o with
  | some r => if r.isEmpty then [] else [(k, recipientJ r)]
  | none => []

/-- The effect of `if x: payload[k] = v` for an optional recipient list. -/
def optSegList (k : String) (o : Option (List Recipient)) : Payload :=
  match o with
  | some xs => if xs.isEmpty then [] else [(k, JValue.list (xs.map recipientJ))]
  | none => []

/-- The effect of `if x: payload[k] = v` for an optional params dict. -/
def optSegParams (k : String) (o : Option Payload) : Payload :=
  match o with
  | some p => if p.isEmpty then [] else [(k, JValue.obj p)]
  | none => []

/-- The payload dict built by `send_email` (lines 166-180): four required
fields, then each optional field appended only when truthy. -/
def build_email_payload (sender : Recipient) (to_ : List Recipient)
    (subject html_content : String) (text_content : Option String)
    (reply_to : Option Recipient) (cc bcc : Option (List Recipient)) : Payload :=
  [("sender", recipientJ sender),
   ("to", JValue.list (to_.map recipientJ)),
   ("subject", JValue.str subject),
   ("htmlContent", JValue.str html_content)]
  ++ optSegStr "textContent" text_content
  ++ optSegRecipient "replyTo" reply_to
  ++ optSegList "cc" cc
  ++ optSegList "bcc" bcc

/-- The payload `send_email` passes to `_post` (after sender resolution
and `_apply_sandbox`), or the `BrevoConfigError` raised before any HTTP
activity. -/
def send_email_dispatch (c : BrevoClient) (s : BrevoSettings)
    (to_ : List Recipient) (subject html_content : String)
    (sender : Option Recipient) (text_content : Option String)
    (reply_to : Option Recipient) (cc bcc : Option (List Recipient)) :
    Except BrevoError Payload :=
  (resolve_sender sender s).map (fun snd =>
    apply_sandbox c
      (build_email_payload snd to_ subject html_content text_content reply_to cc bcc))

/-- Method `BrevoClient.send_email`, with the HTTP response passed explicitly:
build and dispatch the payload, then handle the response. -/
def send_email (c : BrevoClient) (s : BrevoSettings)
    (to_ : List Recipient) (subject html_content : String)
    (sender : Option Recipient) (text_content : Option String)
    (reply_to : Option Recipient) (cc bcc : Option (List Recipient))
    (resp : Response) : Except BrevoError Payload :=
  (send_email_dispatch c s to_ subject html_content sender text_content reply_to cc bcc).bind
    (fun _payload => handle_response resp)

/-- The payload dict built by `send_template_email` (lines 216-230). -/
def build_template_payload (to_ : List Recipient) (template_id : Int)
    (params : Option Payload) (sender : Option Recipient)
    (reply_to : Option Recipient) (cc bcc : Option (List Recipient)) : Payload :=
  [("to", JValue.list (to_.map recipientJ)),
   ("templateId", JValue.num template_id)]
  ++ optSegParams "params" params
  ++ optSegRecipient "sender" sender
  ++ optSegRecipient "replyTo" reply_to
  ++ optSegList "cc" cc
  ++ optSegList "bcc" bcc

/-- The payload `send_template_email` passes to `_post` (after
`_apply_sandbox`); it never consults the settings object. -/
def send_template_dispatch (c : BrevoClient) (to_ : List Recipient)
    (template_id : Int) (params : Option Payload) (sender : Option Recipient)
    (reply_to : Option Recipient) (cc bcc : Option (List Recipient)) : Payload :=
  apply_sandbox c (build_template_payload to_ template_id params sender reply_to cc bcc)

/-- Method `BrevoClient.send_template_email`, with the HTTP response passed
explicitly.  The `_s` parameter models the ambient `brevo_settings`
visible to the method body, which never reads it. -/
def send_template_email (c : BrevoClient) (_s : BrevoSettings)
    (to_ : List Recipient) (template_id : Int) (params : Option Payload)
    (sender : Option Recipient) (reply_to : Option Recipient)
    (cc bcc : Option (List Recipient)) (resp : Response) :
    Except BrevoError Payload :=
  let _payload := send_template_dispatch c to_ template_id params sender reply_to cc bcc
  handle_response resp

/-- Modelled from the spec (section 9): the status-code-to-error
classification `{401 -> Auth, 429 -> RateLimit, else -> Generic}`,
stated independently of `_handle_response` for the refinement claim. -/
def specClassifyError (status : Nat) (message : JValue) (data : Payload) : BrevoError :=
  if status = 401 then .authError message 401 data
  else if status = 429 then .rateLimitError message 429 data
  else .apiError message status data

/-- The parsed body `_handle_response` works with: the JSON body, or the
empty dict when parsing failed. -/
def parsedBody (r : Response) : Payload :=
  match r.jsonBody with
  | some d => d
  | none => []

/-- Expression `data.get("message", response.text)`. -/
def resolveMessage (data : Payload) (text : String) : JValue :=
  (getKey data "message").getD (JValue.str text)

lemma getKey_cons (a : String) (b : JValue) (tl : Payload) (kq : String) :
    getKey ((a, b) :: tl) kq = if (a == kq) = true then some b else getKey tl kq := by
  by_cases h : (a == kq) = true <;> simp [getKey, List.find?_cons, h]

lemma hasKey_cons (a : String) (b : JValue) (tl : Payload) (kq : String) :
    hasKey ((a, b) :: tl) kq = ((a == kq) || hasKey tl kq) := by
  simp [hasKey]

lemma getKey_eq_none_of_hasKey_false (p : Payload) (k : String)
    (h : hasKey p k = false) : getKey p k = none := by
  induction p with
  | nil => rfl
  | cons hd tl ih =>
      rw [show hd = (hd.1, hd.2) from rfl] at h ⊢
      rw [hasKey_cons] at h
      rw [getKey_cons]
      simp only [Bool.or_eq_false_iff] at h
      simp [h.1, ih h.2]

lemma getKey_map_overwrite_self (p : Payload) (k : String) (v : JValue) :
    getKey (p.map (fun kv => if kv.1 == k then (k, v) else kv)) k =
      if hasKey p k then some v else none := by
  induction p with
  | nil => rfl
  | cons hd tl ih =>
      by_cases hh : (hd.1 == k) = true
      · simp only [List.map_cons, hh, if_pos]
        rw [getKey_cons]
        rw [show hd = (hd.1, hd.2) from rfl, hasKey_cons, hh]
        simp
      · simp only [List.map_cons, hh, if_neg, Bool.not_eq_true]
        rw [show hd = (hd.1, hd.2) from rfl, hasKey_cons]
        rw [show ((hd.1, hd.2) : String × JValue) = (hd.1, hd.2) from rfl, getKey_cons]
        simp only [hh, Bool.false_or, if_neg, Bool.not_eq_true]
        exact ih

lemma getKey_map_overwrite_ne (p : Payload) (k kq : String) (v : JValue)
    (h : kq ≠ k) : getKey (p.map (fun kv => if kv.1 == k then (k, v) else kv)) kq =
      getKey p kq := by
  induction p with
  | nil => rfl
  | cons hd tl ih =>
      by_cases hh : (hd.1 == k) = true
      · have hk : hd.1 = k := by simpa using hh
        have hkq : (k == kq) = false := by
          simp only [beq_eq_false_iff_ne]; exact fun e => h e.symm
        have hkq2 : (hd.1 == kq) = false := by rw [hk]; exact hkq
        simp only [List.map_cons, hh, if_pos]
        rw [getKey_cons, show hd = (hd.1, hd.2) from rfl, getKey_cons]
        simp only [hkq, hkq2, if_neg, Bool.false_eq_true, not_false_iff]
        simpa using ih
      · simp only [List.map_cons, hh, if_neg, Bool.not_eq_true]
        rw [show hd = (hd.1, hd.2) from rfl]
        rw [getKey_cons, getKey_cons]
        by_cases hq : (hd.1 == kq) = true
        · simp [hq]
        · simp only [hq, if_neg, Bool.false_eq_true, not_false_iff]
          simpa using ih

lemma getKey_append (p q : Payload) (k : String) :
    getKey (p ++ q) k = ((getKey p k).or (getKey q k)) := by
  induction p with
  | nil => simp [getKey]
  | cons hd tl ih =>
      rw [show hd = (hd.1, hd.2) from rfl, List.cons_append, getKey_cons, getKey_cons]
      by_cases hq : (hd.1 == k) = true <;> simp [hq, ih]

lemma getKey_pySetItem_self (p : Payload) (k : String) (v : JValue) :
    getKey (pySetItem p k v) k = some v := by
  unfold pySetItem
  by_cases hp : p.any (fun kv => kv.1 == k) = true
  · rw [if_pos hp, getKey_map_overwrite_self]
    have : hasKey p k = true := hp
    simp [this]
  · rw [if_neg hp, getKey_append]
    have hpf : hasKey p k = false := by
      simp only [Bool.not_eq_true] at hp; exact hp
    have : getKey p k = none := getKey_eq_none_of_hasKey_false p k hpf
    rw [this, getKey_cons]
    simp

lemma getKey_pySetItem_ne (p : Payload) (k kq : String) (v : JValue)
    (h : kq ≠ k) : getKey (pySetItem p k v) kq = getKey p kq := by
  unfold pySetItem
  by_cases hp : p.any (fun kv => kv.1 == k) = true
  · rw [if_pos hp]
    exact getKey_map_overwrite_ne p k kq v h
  · rw [if_neg hp, getKey_append, getKey_cons]
    have : (k == kq) = false := by
      simp only [beq_eq_false_iff_ne]; exact fun e => h e.symm
    simp [this, getKey]

lemma hasKey_append (p q : Payload) (k : String) :
    hasKey (p ++ q) k = (hasKey p k || hasKey q k) := by
  simp [hasKey]

lemma hasKey_nil (k : String) : hasKey [] k = false := rfl

lemma hasKey_optSegStr (kk : String) (o : Option String) (k : String) :
    hasKey (optSegStr kk o) k = (optStrTruthy o && (kk == k)) := by
  cases o with
  | none => simp [optSegStr, hasKey, optStrTruthy]
  | some t => by_cases h : t.isEmpty <;> simp [optSegStr, hasKey, optStrTruthy, h]

lemma hasKey_optSegRecipient (kk : String) (o : Option Recipient) (k : String) :
    hasKey (optSegRecipient kk o) k = (optDictTruthy o && (kk == k)) := by
  cases o with
  | none => simp [optSegRecipient, hasKey, optDictTruthy]
  | some r => by_cases h : r.isEmpty <;> simp [optSegRecipient, hasKey, optDictTruthy, h]

lemma hasKey_optSegList (kk : String) (o : Option (List Recipient)) (k : String) :
    hasKey (optSegList kk o) k = (optListTruthy o && (kk == k)) := by
  cases o with
  | none => simp [optSegList, hasKey, optListTruthy]
  | some xs => by_cases h : xs.isEmpty <;> simp [optSegList, hasKey, optListTruthy, h]

lemma hasKey_optSegParams (kk : String) (o : Option Payload) (k : String) :
    hasKey (optSegParams kk o) k = (optPayloadTruthy o && (kk == k)) := by
  cases o with
  | none => simp [optSegParams, hasKey, optPayloadTruthy]
  | some p => by_cases h : p.isEmpty <;> simp [optSegParams, hasKey, optPayloadTruthy, h]

/-- C2: in every payload built by `send_email` the four required keys are
present, and each optional key is present exactly when the corresponding
input is truthy (so an omitted, empty-string or empty-list input leaves
the key entirely absent). -/
theorem send_email_payload_key_presence (sender : Recipient)
    (to_ : List Recipient) (subject html_content : String)
    (text_content : Option String) (reply_to : Option Recipient)
    (cc bcc : Option (List Recipient)) :
    hasKey (build_email_payload sender to_ subject html_content text_content reply_to cc bcc) "sender" = true ∧
    hasKey (build_email_payload sender to_ subject html_content text_content reply_to cc bcc) "to" = true ∧
    hasKey (build_email_payload sender to_ subject html_content text_content reply_to cc bcc) "subject" = true ∧
    hasKey (build_email_payload sender to_ subject html_content text_content reply_to cc bcc) "htmlContent" = true ∧
    hasKey (build_email_payload sender to_ subject html_content text_content reply_to cc bcc) "textContent" = optStrTruthy text_content ∧
    hasKey (build_email_payload sender to_ subject html_content text_content reply_to cc bcc) "replyTo" = optDictTruthy reply_to ∧
    hasKey (build_email_payload sender to_ subject html_content text_content reply_to cc bcc) "cc" = optListTruthy cc ∧
    hasKey (build_email_payload sender to_ subject html_content text_content reply_to cc bcc) "bcc" = optListTruthy bcc := by
  refine ⟨?_, ?_, ?_, ?_, ?_, ?_, ?_, ?_⟩ <;>
    simp [build_email_payload, hasKey_append, hasKey_optSegStr,
      hasKey_optSegRecipient, hasKey_optSegList, hasKey_cons, hasKey_nil]

/-- C6: in every payload built by `send_template_email` the keys `to` and
`templateId` are present, each optional key is present exactly when the
corresponding input is truthy (in particular no `sender` key when no
sender is supplied), and the call never consults the default sender: for
every response it is exactly the shared response handling, so no
`ConfigError` can be raised for a missing sender. -/
theorem send_template_payload_key_presence (c : BrevoClient) (s : BrevoSettings)
    (to_ : List Recipient) (template_id : Int) (params : Option Payload)
    (sender : Option Recipient) (reply_to : Option Recipient)
    (cc bcc : Option (List Recipient)) :
    hasKey (build_template_payload to_ template_id params sender reply_to cc bcc) "to" = true ∧
    hasKey (build_template_payload to_ template_id params sender reply_to cc bcc) "templateId" = true ∧
    hasKey (build_template_payload to_ template_id params sender reply_to cc bcc) "params" = optPayloadTruthy params ∧
    hasKey (build_template_payload to_ template_id params sender reply_to cc bcc) "sender" = optDictTruthy sender ∧
    hasKey (build_template_payload to_ template_id params sender reply_to cc bcc) "replyTo" = optDictTruthy reply_to ∧
    hasKey (build_template_payload to_ template_id params sender reply_to cc bcc) "cc" = optListTruthy cc ∧
    hasKey (build_template_payload to_ template_id params sender reply_to cc bcc) "bcc" = optListTruthy bcc ∧
    (∀ resp : Response, send_template_email c s to_ template_id params sender reply_to cc bcc resp = handle_response resp) := by
  refine ⟨?_, ?_, ?_, ?_, ?_, ?_, ?_, fun resp => rfl⟩ <;>
    simp [build_template_payload, hasKey_append, hasKey_optSegParams,
      hasKey_optSegRecipient, hasKey_optSegList, hasKey_cons, hasKey_nil]

lemma build_email_payload_no_headers (sender : Recipient) (to_ : List Recipient)
    (subject html_content : String) (text_content : Option String)
    (reply_to : Option Recipient) (cc bcc : Option (List Recipient)) :
    hasKey (build_email_payload sender to_ subject html_content text_content reply_to cc bcc) "headers" = false := by
  simp [build_email_payload, hasKey_append, hasKey_optSegStr,
    hasKey_optSegRecipient, hasKey_optSegList, hasKey_cons, hasKey_nil]

lemma build_template_payload_no_headers (to_ : List Recipient) (template_id : Int)
    (params : Option Payload) (sender : Option Recipient)
    (reply_to : Option Recipient) (cc bcc : Option (List Recipient)) :
    hasKey (build_template_payload to_ template_id params sender reply_to cc bcc) "headers" = false := by
  simp [build_template_payload, hasKey_append, hasKey_optSegParams,
    hasKey_optSegRecipient, hasKey_optSegList, hasKey_cons, hasKey_nil]

lemma getKey_apply_sandbox_headers (c : BrevoClient) (p : Payload)
    (h : hasKey p "headers" = false) :
    getKey (apply_sandbox c p) "headers" =
      (if c.sandbox then some sandboxHeadersJ else none) := by
  unfold apply_sandbox
  by_cases hs : c.sandbox
  · simp [hs, getKey_pySetItem_self]
  · simp [hs, getKey_eq_none_of_hasKey_false p "headers" h]

/-- C3: the payload dispatched by either operation carries the `headers`
key exactly when sandbox mode is enabled, and then it is the fixed
mapping `{"X-Sib-Sandbox": "drop"}`; with sandbox disabled the key is
entirely absent (`getKey` is `none`). -/
theorem sandbox_header_uniform (c : BrevoClient) (s : BrevoSettings)
    (to_ : List Recipient) (subject html_content : String)
    (sender : Option Recipient) (text_content : Option String)
    (reply_to : Option Recipient) (cc bcc : Option (List Recipient))
    (template_id : Int) (params : Option Payload) :
    (∀ p, send_email_dispatch c s to_ subject html_content sender text_content reply_to cc bcc = .ok p →
      getKey p "headers" = (if c.sandbox then some sandboxHeadersJ else none)) ∧
    getKey (send_template_dispatch c to_ template_id params sender reply_to cc bcc) "headers" =
      (if c.sandbox then some sandboxHeadersJ else none) := by
  constructor
  · intro p hp
    unfold send_email_dispatch at hp
    cases hr : resolve_sender sender s with
    | error e => rw [hr] at hp; cases hp
    | ok snd =>
        rw [hr] at hp
        simp only [Except.map, Except.ok.injEq] at hp
        rw [← hp]
        exact getKey_apply_sandbox_headers c _
          (build_email_payload_no_headers snd to_ subject html_content text_content reply_to cc bcc)
  · exact getKey_apply_sandbox_headers c _
      (build_template_payload_no_headers to_ template_id params sender reply_to cc bcc)

/-- C9: `_apply_sandbox` only ever touches the `headers` key: every other
key keeps its value, and with sandbox disabled the payload is returned
unchanged. -/
theorem apply_sandbox_frame (c : BrevoClient) (p : Payload) :
    (c.sandbox = false → apply_sandbox c p = p) ∧
    (∀ k, k ≠ "headers" → getKey (apply_sandbox c p) k = getKey p k) := by
  constructor
  · intro h; simp [apply_sandbox, h]
  · intro k hk
    unfold apply_sandbox
    by_cases hs : c.sandbox
    · simp only [hs, if_pos]
      exact getKey_pySetItem_ne p "headers" k _ hk
    · simp [hs]

/-- C1: `_handle_response` on any non-2xx response raises exactly the
typed error given by the spec classification `{401 -> Auth, 429 ->
RateLimit, else -> Generic}`, carrying the message resolved from the
parsed body (falling back to the raw text), the status code, and the
parsed body mapping. -/
theorem handle_response_non2xx_classifies (r : Response)
    (h : is2xx r.status_code = false) :
    handle_response r =
      .error (specClassifyError r.status_code
        (resolveMessage (parsedBody r) r.text) (parsedBody r)) := by
  rcases r with ⟨st, body, txt⟩
  have hs : is2xx st = false := h
  by_cases h1 : st = 401
  · subst h1
    simp [handle_response, specClassifyError, resolveMessage, parsedBody, hs]
  · by_cases h2 : st = 429
    · subst h2
      simp [handle_response, specClassifyError, resolveMessage, parsedBody, hs, h1]
    · simp [handle_response, specClassifyError, resolveMessage, parsedBody, hs, h1, h2]

/-- C7: a response body that fails to parse as JSON is treated as the
empty mapping: handling is identical to the same response with an empty
JSON body, and on a non-2xx status the typed error for the status code
is still raised, with the raw response text as message and an empty body
mapping. -/
theorem handle_response_malformed_body (r : Response) (h : r.jsonBody = none) :
    handle_response r = handle_response { r with jsonBody := some [] } ∧
    (is2xx r.status_code = false →
      handle_response r =
        .error (specClassifyError r.status_code (JValue.str r.text) [])) := by
  rcases r with ⟨st, body, txt⟩
  cases h
  constructor
  · rfl
  · intro h2
    have hs : is2xx st = false := h2
    by_cases h1 : st = 401
    · subst h1
      simp [handle_response, specClassifyError, getKey, hs]
    · by_cases h3 : st = 429
      · subst h3
        simp [handle_response, specClassifyError, getKey, hs, h1]
      · simp [handle_response, specClassifyError, getKey, hs, h1, h3]

/-- C4: `send_email` with no sender falls back to the configured default
address as `{"email": default}`; when that is also absent or empty, the
call is the `ConfigError`, whatever the network would have answered. -/
theorem send_email_no_sender (c : BrevoClient) (s : BrevoSettings)
    (to_ : List Recipient) (subject html_content : String)
    (text_content : Option String) (reply_to : Option Recipient)
    (cc bcc : Option (List Recipient)) :
    (∀ d, s.DEFAULT_FROM_EMAIL = some d → d.isEmpty = false →
      send_email_dispatch c s to_ subject html_content none text_content reply_to cc bcc =
        .ok (apply_sandbox c (build_email_payload [("email", d)] to_ subject html_content text_content reply_to cc bcc)) ∧
      getKey (build_email_payload [("email", d)] to_ subject html_content text_content reply_to cc bcc) "sender" =
        some (recipientJ [("email", d)])) ∧
    (optStrTruthy s.DEFAULT_FROM_EMAIL = false →
      ∀ resp, send_email c s to_ subject html_content none text_content reply_to cc bcc resp =
        .error (.configError senderCfgMsg)) := by
  constructor
  · intro d hd hne
    constructor
    · unfold send_email_dispatch resolve_sender
      rw [hd]
      simp [hne, Except.map]
    · simp [build_email_payload, getKey_append, getKey_cons]
  · intro hf resp
    unfold send_email send_email_dispatch resolve_sender
    cases hd : s.DEFAULT_FROM_EMAIL with
    | none => simp [Except.map, Except.bind]
    | some d =>
        have hde : d.isEmpty = true := by
          rw [hd] at hf
          simpa [optStrTruthy] using hf
        simp [hde, Except.map, Except.bind]

/-- C5: client construction resolves the API key from the override or,
failing that, from settings; when neither is a non-empty string it is
the `ConfigError`, and otherwise it succeeds capturing base URL,
timeout and sandbox flag from the settings at construction. -/
theorem client_init_resolution (api_key : Option String) (s : BrevoSettings) :
    (optStrTruthy api_key = false → optStrTruthy s.API_KEY = false →
      BrevoClient.init api_key s = .error (.configError apiKeyCfgMsg)) ∧
    (∀ k, api_key = some k → k.isEmpty = false →
      BrevoClient.init api_key s = .ok ⟨k, s.API_BASE_URL, s.TIMEOUT, s.SANDBOX⟩) ∧
    (optStrTruthy api_key = false →
      ∀ k, s.API_KEY = some k → k.isEmpty = false →
        BrevoClient.init api_key s = .ok ⟨k, s.API_BASE_URL, s.TIMEOUT, s.SANDBOX⟩) := by
  refine ⟨?_, ?_, ?_⟩
  · intro h1 h2
    unfold BrevoClient.init pyOr
    rw [h1]
    simp only [Bool.false_eq_true, if_false]
    cases hk : s.API_KEY with
    | none => rfl
    | some k =>
        have : k.isEmpty = true := by
          rw [hk] at h2
          simpa [optStrTruthy] using h2
        simp [this]
  · intro k hk hne
    subst hk
    unfold BrevoClient.init pyOr
    simp [optStrTruthy, hne]
  · intro h1 k hk hne
    unfold BrevoClient.init pyOr
    rw [h1]
    simp [hk, hne]

/-- C10: a 2xx response whose body is not valid JSON makes both
operations return the empty mapping instead of raising. -/
theorem success_malformed_body_returns_empty (c : BrevoClient) (s : BrevoSettings)
    (to_ : List Recipient) (subject html_content : String) (snd : Recipient)
    (text_content : Option String) (reply_to : Option Recipient)
    (cc bcc : Option (List Recipient)) (template_id : Int) (params : Option Payload)
    (sender : Option Recipient) (resp : Response)
    (h2xx : is2xx resp.status_code = true) (hbody : resp.jsonBody = none) :
    send_email c s to_ subject html_content (some snd) text_content reply_to cc bcc resp = .ok [] ∧
    send_template_email c s to_ template_id params sender reply_to cc bcc resp = .ok [] := by
  rcases resp with ⟨st, body, txt⟩
  cases hbody
  have hs : is2xx st = true := h2xx
  constructor
  · simp [send_email, send_email_dispatch, resolve_sender, Except.map, Except.bind,
      handle_response, hs]
  · simp [send_template_email, handle_response, hs]

/-- C8 (amended): whenever the sender argument is supplied, and for every
template send, a call's outcome is fully determined by the client's
captured state, the arguments and the response: the ambient settings at
call time are irrelevant. -/
theorem captured_state_determinism (c : BrevoClient) (s1 s2 : BrevoSettings)
    (to_ : List Recipient) (subject html_content : String) (snd : Recipient)
    (text_content : Option String) (reply_to : Option Recipient)
    (cc bcc : Option (List Recipient)) (template_id : Int) (params : Option Payload)
    (sender : Option Recipient) (resp : Response) :
    send_email c s1 to_ subject html_content (some snd) text_content reply_to cc bcc resp =
      send_email c s2 to_ subject html_content (some snd) text_content reply_to cc bcc resp ∧
    send_template_email c s1 to_ template_id params sender reply_to cc bcc resp =
      send_template_email c s2 to_ template_id params sender reply_to cc bcc resp :=
  ⟨rfl, rfl⟩

/-- A client with sandbox disabled, for concrete instantiations. -/
def cW : BrevoClient := ⟨"k", "https://api.brevo.com/v3", 10, false⟩

/-- A client with sandbox enabled. -/
def cSbxOn : BrevoClient := ⟨"k", "https://api.brevo.com/v3", 10, true⟩

/-- Settings with a configured default sender. -/
def sDefW : BrevoSettings := ⟨some "k", "https://api.brevo.com/v3", 10, false, some "d@e.com"⟩

/-- Settings with no default sender. -/
def sNoDefW : BrevoSettings := ⟨some "k", "https://api.brevo.com/v3", 10, false, none⟩

/-- Settings with no API key. -/
def sNoKeyW : BrevoSettings := ⟨none, "https://api.brevo.com/v3", 10, false, none⟩

/-- A one-element recipient list. -/
def toW : List Recipient := [[("email", "a@b.com")]]

/-- An explicit sender. -/
def sndW : Recipient := [("email", "s@b.com")]

/-- A 200 response with a JSON body. -/
def respOkW : Response := ⟨200, some [("messageId", JValue.str "m1")], ""⟩

/-- A 500 response with a JSON body carrying a message. -/
def respNon2xxW : Response := ⟨500, some [("message", JValue.str "boom")], "raw"⟩

/-- A 500 response whose body is not valid JSON. -/
def respBadW : Response := ⟨500, none, "oops"⟩

/-- A 204 response whose body is not valid JSON. -/
def respOkBadW : Response := ⟨204, none, "not json"⟩

/-- A small payload for frame-condition instantiations. -/
def pFrameW : Payload := [("subject", JValue.str "S")]

/-- The payload `send_email` dispatches for a sandboxed client. -/
def emailPayloadW : Payload :=
  apply_sandbox cSbxOn (build_email_payload sndW toW "S" "<p>" none none none none)

/-- C8 counterexample: two clients with identical captured state and
identical arguments observe different outcomes when the ambient
settings' default sender differs at call time, because `send_email`
reads `DEFAULT_FROM_EMAIL` from the settings object mid-call. -/
theorem mid_call_settings_lookup_counterexample :
    send_email cW sNoDefW toW "S" "<p>x</p>" none none none none none respOkW ≠
    send_email cW sDefW toW "S" "<p>x</p>" none none none none none respOkW := by
  intro h
  have h1 : send_email cW sNoDefW toW "S" "<p>x</p>" none none none none none respOkW =
      Except.error (BrevoError.configError senderCfgMsg) := rfl
  have h2 : send_email cW sDefW toW "S" "<p>x</p>" none none none none none respOkW =
      Except.ok [("messageId", JValue.str "m1")] := by
    simp [send_email, send_email_dispatch, resolve_sender, sDefW, respOkW,
      Except.map, Except.bind, handle_response, is2xx,
      show "d@e.com".isEmpty = false from rfl]
  rw [h1, h2] at h
  exact Except.noConfusion h

/-- C1 witness: the 500 response is classified as the generic API error
with the body's message and the parsed body. -/
theorem handle_response_non2xx_classifies_witness :
    handle_response respNon2xxW =
      .error (specClassifyError respNon2xxW.status_code
        (resolveMessage (parsedBody respNon2xxW) respNon2xxW.text) (parsedBody respNon2xxW)) :=
  handle_response_non2xx_classifies respNon2xxW (by decide)

/-- C3 witness: the payload dispatched by a sandboxed `send_email`
carries the fixed sandbox header. -/
theorem sandbox_header_uniform_witness :
    getKey emailPayloadW "headers" = some sandboxHeadersJ := by
  have h := (sandbox_header_uniform cSbxOn sDefW toW "S" "<p>" (some sndW) none none none none
    1 none).1 emailPayloadW rfl
  simpa [cSbxOn] using h

/-- C4 witness: with a configured default sender the dispatch succeeds
with `{"email": "d@e.com"}` as sender; with none it is the
`ConfigError` even on a 200 response. -/
theorem send_email_no_sender_witness :
    send_email_dispatch cW sDefW toW "S" "<p>" none none none none none =
      .ok (apply_sandbox cW (build_email_payload [("email", "d@e.com")] toW "S" "<p>" none none none none)) ∧
    send_email cW sNoDefW toW "S" "<p>" none none none none none respOkW =
      .error (.configError senderCfgMsg) :=
  ⟨((send_email_no_sender cW sDefW toW "S" "<p>" none none none none).1 "d@e.com" rfl (by decide)).1,
   (send_email_no_sender cW sNoDefW toW "S" "<p>" none none none none).2 (by decide) respOkW⟩

/-- C5 witness: no key at all is the `ConfigError`; an override key or a
settings key constructs the client with the captured configuration. -/
theorem client_init_resolution_witness :
    BrevoClient.init none sNoKeyW = .error (.configError apiKeyCfgMsg) ∧
    BrevoClient.init (some "ovr") sNoKeyW =
      .ok ⟨"ovr", sNoKeyW.API_BASE_URL, sNoKeyW.TIMEOUT, sNoKeyW.SANDBOX⟩ ∧
    BrevoClient.init none sDefW =
      .ok ⟨"k", sDefW.API_BASE_URL, sDefW.TIMEOUT, sDefW.SANDBOX⟩ :=
  ⟨(client_init_resolution none sNoKeyW).1 (by decide) (by decide),
   (client_init_resolution (some "ovr") sNoKeyW).2.1 "ovr" rfl (by decide),
   (client_init_resolution none sDefW).2.2 (by decide) "k" rfl (by decide)⟩

/-- C7 witness: a 500 response with an unparseable body raises the
generic API error with the raw text as message and an empty body. -/
theorem handle_response_malformed_body_witness :
    handle_response respBadW = handle_response { respBadW with jsonBody := some [] } ∧
    handle_response respBadW =
      .error (specClassifyError respBadW.status_code (JValue.str respBadW.text) []) := by
  have h := handle_response_malformed_body respBadW rfl
  exact ⟨h.1, h.2 (by decide)⟩

/-- C9 witness: with sandbox off the payload is returned unchanged, and
with sandbox on the `subject` key keeps its value. -/
theorem apply_sandbox_frame_witness :
    apply_sandbox cW pFrameW = pFrameW ∧
    getKey (apply_sandbox cSbxOn pFrameW) "subject" = getKey pFrameW "subject" :=
  ⟨(apply_sandbox_frame cW pFrameW).1 rfl,
   (apply_sandbox_frame cSbxOn pFrameW).2 "subject" (by decide)⟩

/-- C10 witness: a 204 response with an unparseable body makes both
operations return the empty mapping. -/
theorem success_malformed_body_returns_empty_witness :
    send_email cW sDefW toW "S" "<p>" (some sndW) none none none none respOkBadW = .ok [] ∧
    send_template_email cW sDefW toW 42 none none none none none respOkBadW = .ok [] :=
  success_malformed_body_returns_empty cW sDefW toW "S" "<p>" sndW none none none none
    42 none none respOkBadW (by decide) rfl
